import Mathlib

set_option maxHeartbeats 1000000
set_option maxRecDepth 4000

/-!
Shallow embedding of the Quora scraper (src/quora_scraper.py).

The page driver is abstracted as a `Page`: each CSS query the code issues at a
position slot `i` is a field `Nat → Except Err (Option Elem)`, an element read
(`get_attribute`, `inner_text`, `click`) is an `Except Err _` value, so that
any driver-level failure the Python code can raise is representable.  The
control flow of `extract_posts`, `extract_posts_for_count`, the scroll loop of
`search_keyword` and `scrape_posts` is transcribed match-for-match, with each
Python `try/except` rendered as an explicit case split on the `Except` values
produced inside its protected block.
-/

namespace Quora

/-- Exceptions carry no information we need. -/
abbrev Err := Unit

/-- Python `str.strip()` with no argument: remove leading and trailing
whitespace.  Defined structurally on the character list so that it computes
by kernel reduction. -/
def pyStrip (s : String) : String :=
  ⟨((s.data.dropWhile Char.isWhitespace).reverse.dropWhile Char.isWhitespace).reverse⟩

/-- Python `s.startswith(pre)`. -/
def pyStartsWith (s pre : String) : Bool :=
  pre.data.isPrefixOf s.data

/-- ASCII lowering of one character, as Python `str.lower()` does on the
ASCII range (the only range the scraper's check involves). -/
def lowerChar (c : Char) : Char :=
  if 65 ≤ c.toNat ∧ c.toNat ≤ 90 then Char.ofNat (c.toNat + 32) else c

/-- Python `s.lower()` on ASCII text. -/
def pyLower (s : String) : String :=
  ⟨s.data.map lowerChar⟩

/-- A DOM element handle: the three element operations the scraper uses.
Each can fail (stale handle, driver error), as in Playwright. -/
structure Elem where
  href : Except Err (Option String)
  text : Except Err String
  click : Except Err Unit

/-- The rendered page, abstracted as the results of the queries the scraper
issues.  `link1 i` is `query_selector` of the pattern-1 (div-wrapped) link
selector at `nth-child(i)`; `link2 i` the pattern-2 (span-wrapped) one;
`moreButton/viewsElem/likesElem i` the pattern-2 expand path queries;
`followA/followCountA i` the primary Follow selectors and
`followB/followCountB i` the alternate ones; `fallback j` is
`query_selector_all` of the j-th generic fallback selector (0-based, 14 of
them in the source). -/
structure Page where
  link1 : Nat → Except Err (Option Elem)
  link2 : Nat → Except Err (Option Elem)
  moreButton : Nat → Except Err (Option Elem)
  viewsElem : Nat → Except Err (Option Elem)
  likesElem : Nat → Except Err (Option Elem)
  followA : Nat → Except Err (Option Elem)
  followCountA : Nat → Except Err (Option Elem)
  followB : Nat → Except Err (Option Elem)
  followCountB : Nat → Except Err (Option Elem)
  fallback : Nat → Except Err (List Elem)

/-- One output record: the dict the scraper appends to `posts`.  Records from
the fallback pass carry only `title`, `url`, `content`; the metric keys are
then absent, modelled as `none`. -/
structure Post where
  title : String
  url : String
  content : String
  follow_text : Option String := none
  follow_count : Option String := none
  views : Option String := none
  likes : Option String := none
deriving DecidableEq

/-- URL resolution as written in the source (lines 423-428 and 523-528):
`if href and href.startswith("/"): origin+href elif href: href else: ""`. -/
def resolveLink : Option String → String
  | none => ""
  | some s =>
    if pyStartsWith s "/" then "https://www.quora.com" ++ s
    else if s = "" then "" else s

/-- `if not x: x = "0"` — the default filled by the except handlers and the
final Follow defaults. -/
def fill0 (s : String) : String := if s = "" then "0" else s

/-- `el = query(...)` then `if el: cur = el.inner_text().strip()`:
keeps `cur` when the element is absent, propagates a raised exception. -/
def readStep (q : Except Err (Option Elem)) (cur : String) : Except Err String :=
  match q with
  | .error e => .error e
  | .ok none => .ok cur
  | .ok (some el) =>
    match el.text with
    | .error e => .error e
    | .ok t => .ok (pyStrip t)

/-- `el = query(...)` then `if el: v = el.inner_text().strip() else: v = "0"`
(the views/likes reads inside the pattern-2 expand path). -/
def readOr0 (q : Except Err (Option Elem)) : Except Err String :=
  match q with
  | .error e => .error e
  | .ok none => .ok "0"
  | .ok (some el) =>
    match el.text with
    | .error e => .error e
    | .ok t => .ok (pyStrip t)

/-- The `if link2:` block of `extract_posts` (lines 369-404): click the more
button, read views and likes; its except handler replaces a still-empty field
by `"0"`.  Both strings start out `""`; when the more button is absent and
nothing raises, they stay `""`. -/
def mode2Metrics (p : Page) (i : Nat) : String × String :=
  match p.moreButton i with
  | .error _ => ("0", "0")
  | .ok none => ("", "")
  | .ok (some btn) =>
    match btn.click with
    | .error _ => ("0", "0")
    | .ok _ =>
      match readOr0 (p.viewsElem i) with
      | .error _ => ("0", "0")
      | .ok views =>
        match readOr0 (p.likesElem i) with
        | .error _ => (fill0 views, "0")
        | .ok likes => (views, likes)

/-- The `if link1:` Follow block of `extract_posts` (lines 431-476): primary
selectors, alternate selectors when the primary reads were empty, then the
empty fields are filled with `"0"`; the except handler fills the fields that
are still empty at the point of the raise. -/
def followMetrics (p : Page) (i : Nat) : String × String :=
  match readStep (p.followA i) "" with
  | .error _ => ("0", "0")
  | .ok ft1 =>
    match readStep (p.followCountA i) "" with
    | .error _ => (fill0 ft1, "0")
    | .ok fc1 =>
      match (if ft1 = "" then readStep (p.followB i) ft1 else .ok ft1) with
      | .error _ => (fill0 ft1, fill0 fc1)
      | .ok ft2 =>
        match (if fc1 = "" then readStep (p.followCountB i) fc1 else .ok fc1) with
        | .error _ => (fill0 ft2, fill0 fc1)
        | .ok fc2 => (fill0 ft2, fill0 fc2)

/-- One iteration of the primary slot loop of `extract_posts` (lines 353-500):
query both patterns (these queries sit outside any inner `try`, so their
failures propagate), run the pattern-2 metrics block when pattern 2 matched,
pick `link1 if link1 else link2`, and inside the per-slot `try` read href and
title; a raise there means `continue` (`.ok none`).  A post is produced when
the stripped title is non-empty and longer than 10 characters. -/
def slotStep (p : Page) (i : Nat) : Except Err (Option Post) :=
  match p.link1 i with
  | .error e => .error e
  | .ok l1 =>
    match p.link2 i with
    | .error e => .error e
    | .ok l2 =>
      let vl : String × String :=
        match l2 with
        | some _ => mode2Metrics p i
        | none => ("", "")
      match (match l1 with | some e1 => some e1 | none => l2) with
      | none => .ok none
      | some link =>
        match link.href with
        | .error _ => .ok none
        | .ok href =>
          match link.text with
          | .error _ => .ok none
          | .ok raw =>
            let title := pyStrip raw
            if title ≠ "" ∧ 10 < title.length then
              let fm : String × String :=
                match l1 with
                | some _ => followMetrics p i
                | none => ("", "")
              .ok (some { title := title, url := resolveLink href,
                          content := "",
                          follow_text := some fm.1, follow_count := some fm.2,
                          views := some vl.1, likes := some vl.2 })
            else .ok none

/-- The primary pass: `for i in range(1, 100)` with
`if len(posts) >= target_posts: break` right after each append. -/
def primaryLoop (p : Page) (target : Nat) : List Nat → List Post → Except Err (List Post)
  | [], acc => .ok acc
  | i :: rest, acc =>
    match slotStep p i with
    | .error e => .error e
    | .ok none => primaryLoop p target rest acc
    | .ok (some post) =>
      let acc' := acc ++ [post]
      if target ≤ acc'.length then .ok acc'
      else primaryLoop p target rest acc'

/-- Processing of one link inside the fallback pass (lines 517-538): read
href and title inside a per-link `try` (a raise means `continue`), append a
title-and-url-only record when the title qualifies. -/
def fbConsider (link : Elem) (acc : List Post) : List Post :=
  match link.href with
  | .error _ => acc
  | .ok href =>
    match link.text with
    | .error _ => acc
    | .ok raw =>
      let title := pyStrip raw
      if title ≠ "" ∧ 10 < title.length then
        acc ++ [{ title := title, url := resolveLink href, content := "" }]
      else acc

/-- The inner `for link in links` of the fallback pass, checking
`if len(posts) >= target_posts: break` before each link. -/
def fbLinkLoop (target : Nat) : List Elem → List Post → List Post
  | [], acc => acc
  | link :: rest, acc =>
    if target ≤ acc.length then acc
    else fbLinkLoop target rest (fbConsider link acc)

/-- The outer `for selector in fallback_selectors` of the fallback pass:
check the target, `query_selector_all` inside a `try` whose raise means
`continue`, then the inner link loop. -/
def fbSelLoop (p : Page) (target : Nat) : List Nat → List Post → List Post
  | [], acc => acc
  | j :: rest, acc =>
    if target ≤ acc.length then acc
    else
      fbSelLoop p target rest
        (match p.fallback j with
         | .ok links => fbLinkLoop target links acc
         | .error _ => acc)

/-- Body of `extract_posts` inside its outermost `try`: the primary pass over
slots 1..99, then the fallback pass when it under-delivered. -/
def extract_posts_body (p : Page) (target : Nat) : Except Err (List Post) :=
  match primaryLoop p target (List.range' 1 99) [] with
  | .error e => .error e
  | .ok posts =>
    if posts.length < target then .ok (fbSelLoop p target (List.range' 0 14) posts)
    else .ok posts

/-- `extract_posts` (lines 299-550): its outermost `except` returns `[]`. -/
def extract_posts (p : Page) (target : Nat) : Except Err (List Post) :=
  match extract_posts_body p target with
  | .ok posts => .ok posts
  | .error _ => .ok []

/-- The slot loop of `extract_posts_for_count` (lines 563-592): same two
pattern queries per slot (outside any inner `try`), title-only records, no
target and no break. -/
def countLoop (p : Page) : List Nat → List Post → Except Err (List Post)
  | [], acc => .ok acc
  | i :: rest, acc =>
    match p.link1 i with
    | .error e => .error e
    | .ok l1 =>
      match p.link2 i with
      | .error e => .error e
      | .ok l2 =>
        match (match l1 with | some e1 => some e1 | none => l2) with
        | none => countLoop p rest acc
        | some link =>
          match link.text with
          | .error _ => countLoop p rest acc
          | .ok raw =>
            let title := pyStrip raw
            if title ≠ "" ∧ 10 < title.length then
              countLoop p rest (acc ++ [{ title := title, url := "", content := "" }])
            else countLoop p rest acc

/-- `extract_posts_for_count` (lines 552-598): slots 1..99, outer `except`
returns `[]`. -/
def extract_posts_for_count (p : Page) : Except Err (List Post) :=
  match countLoop p (List.range' 1 99) [] with
  | .ok posts => .ok posts
  | .error _ => .ok []

/-- `len(self.extract_posts_for_count())` as used by the scroll loop. -/
def measuredCount (p : Page) : Nat :=
  match extract_posts_for_count p with
  | .ok posts => posts.length
  | .error _ => 0

/-- Why the scroll loop of `search_keyword` exited. -/
inductive StopReason
  | targetReached
  | stagnation
  | budget
deriving DecidableEq

/-- The scroll loop of `search_keyword` (lines 234-272).  `fuel` is the
remaining budget out of `max_scrolls = 50`, `k` the number of completed
iterations, `prev` the previous measured count, `noNew` the running
`no_new_posts_count`.  Iteration `k` (0-based) measures `yields k`.  Returns
the number of scroll iterations performed and the exit reason. -/
def revealLoopAux (yields : Nat → Nat) (target : Nat) :
    Nat → Nat → Nat → Nat → Nat × StopReason
  | 0, k, _, _ => (k, .budget)
  | fuel + 1, k, prev, noNew =>
    let c := yields k
    if target ≤ c then (k + 1, .targetReached)
    else
      let noNew' := if prev < c then 0 else noNew + 1
      if 5 ≤ noNew' then (k + 1, .stagnation)
      else revealLoopAux yields target fuel (k + 1) c noNew'

/-- The scroll loop started as the source does: budget 50, counters 0. -/
def revealLoop (yields : Nat → Nat) (target : Nat) : Nat × StopReason :=
  revealLoopAux yields target 50 0 0 0

/-- Python `needle in hay` for strings. -/
def strContains (hay needle : String) : Bool :=
  hay.data.tails.any (fun t => needle.data.isPrefixOf t)

/-- The empty-result check of `search_keyword` (lines 220-223):
`"no results" in content.lower() or "no answers" in content.lower()`. -/
def noResultsFlag (content : String) : Bool :=
  strContains (pyLower content) "no results" || strContains (pyLower content) "no answers"

/-- One keyword search as the driver sees it: the rendered page text right
after navigation, and the page state observed after the k-th scroll
iteration (0-based).  The page is external state; nothing constrains how it
evolves between scrolls. -/
structure Site where
  pageContent : String
  pageAt : Nat → Page

/-- `search_keyword` (lines 196-297), instrumented with the number of scroll
iterations actually performed: empty-result early return, the scroll loop,
then one full extraction on the page state of the last measurement.  The
loop always runs at least one iteration, so after it `iters - 1` indexes the
last-measured page state. -/
def search_keyword_run (s : Site) (target : Nat) : List Post × Nat :=
  if noResultsFlag s.pageContent then ([], 0)
  else
    let r := revealLoop (fun k => measuredCount (s.pageAt k)) target
    let posts :=
      match extract_posts (s.pageAt (r.1 - 1)) target with
      | .ok posts => posts
      | .error _ => []
    (posts, r.1)

/-- The list `search_keyword` returns. -/
def search_keyword (s : Site) (target : Nat) : List Post :=
  (search_keyword_run s target).1

/-- `scrape_posts` (lines 663-691): search, return `[]` when nothing was
found, else truncate with `posts[:max_posts]`. -/
def scrape_posts (s : Site) (max_posts : Nat) : List Post :=
  let posts := search_keyword s max_posts
  if posts.isEmpty then [] else posts.take max_posts

/-! ### Concrete page states used as witnesses and counterexamples -/

/-- A pattern-1 style link element with a title above the 10-character
threshold and a relative href. -/
def elemA : Elem :=
  { href := .ok (some "/q1"), text := .ok "What is the best example question",
    click := .ok () }

/-- A pattern-2 style link element. -/
def elemB : Elem :=
  { href := .ok (some "/q2"), text := .ok "A second sufficiently long headline",
    click := .ok () }

/-- A link element whose href neither starts with a slash nor looks absolute. -/
def elemRel : Elem :=
  { href := .ok (some "foo/bar"), text := .ok "Another sufficiently long title",
    click := .ok () }

/-- The expand (more) button of the pattern-2 path. -/
def moreBtn : Elem := { href := .ok none, text := .ok "", click := .ok () }

/-- The views counter element. -/
def viewsEl : Elem := { href := .ok none, text := .ok "55", click := .ok () }

/-- The likes counter element. -/
def likesEl : Elem := { href := .ok none, text := .ok "7", click := .ok () }

/-- A page on which every query comes back empty. -/
def pEmpty : Page :=
  { link1 := fun _ => .ok none, link2 := fun _ => .ok none,
    moreButton := fun _ => .ok none, viewsElem := fun _ => .ok none,
    likesElem := fun _ => .ok none, followA := fun _ => .ok none,
    followCountA := fun _ => .ok none, followB := fun _ => .ok none,
    followCountB := fun _ => .ok none, fallback := fun _ => .ok [] }

/-- A page whose only content is a pattern-1 link at slot 1; no Follow
elements exist. -/
def pA1 : Page :=
  { pEmpty with link1 := fun i => if i = 1 then .ok (some elemA) else .ok none }

/-- A page on which slot 1 matches both patterns, with the pattern-2 expand
path fully present (more button, views and likes counters). -/
def pBoth : Page :=
  { pEmpty with
    link1 := fun i => if i = 1 then .ok (some elemA) else .ok none,
    link2 := fun i => if i = 1 then .ok (some elemB) else .ok none,
    moreButton := fun i => if i = 1 then .ok (some moreBtn) else .ok none,
    viewsElem := fun i => if i = 1 then .ok (some viewsEl) else .ok none,
    likesElem := fun i => if i = 1 then .ok (some likesEl) else .ok none }

/-- A page whose slot-1 pattern-1 link has the plain relative href
`foo/bar`. -/
def pRel : Page :=
  { pEmpty with link1 := fun i => if i = 1 then .ok (some elemRel) else .ok none }

/-- A page whose only content is a pattern-1 link at position 100. -/
def p100 : Page :=
  { pEmpty with link1 := fun i => if i = 100 then .ok (some elemA) else .ok none }

/-- A page whose only content is a pattern-1 link at position 99. -/
def p99 : Page :=
  { pEmpty with link1 := fun i => if i = 99 then .ok (some elemA) else .ok none }

/-- A search whose rendered page text announces that there are no results. -/
def siteNoRes : Site := { pageContent := "no results", pageAt := fun _ => pEmpty }

/-- A search with results text but an empty page at every scroll step. -/
def siteOk : Site := { pageContent := "some answers", pageAt := fun _ => pEmpty }

/-- The measurement sequence 2, 5, 9, 12 (then 0). -/
def yC7 : Nat → Nat := fun k => [2, 5, 9, 12].getD k 0

/-! ### Length bounds for the extraction passes -/

/-- Processing one fallback link appends at most one record. -/
theorem fbConsider_length_le (link : Elem) (acc : List Post) :
    (fbConsider link acc).length ≤ acc.length + 1 := by
  rcases hh : link.href with e | href
  · simp [fbConsider, hh]
  · rcases ht : link.text with e | raw
    · simp [fbConsider, hh, ht]
    · by_cases hcond : pyStrip raw ≠ "" ∧ 10 < (pyStrip raw).length
      · simp [fbConsider, hh, ht, hcond]
      · simp [fbConsider, hh, ht, hcond]

/-- The inner fallback loop never grows the accumulator past the target. -/
theorem fbLinkLoop_length_le (target : Nat) (links : List Elem) :
    ∀ acc : List Post, acc.length ≤ target →
      (fbLinkLoop target links acc).length ≤ target := by
  induction links with
  | nil => intro acc h; simpa [fbLinkLoop] using h
  | cons link rest ih =>
    intro acc h
    by_cases hge : target ≤ acc.length
    · simpa [fbLinkLoop, hge] using h
    · have hlt : acc.length < target := Nat.lt_of_not_le hge
      have h' : (fbConsider link acc).length ≤ target := by
        have := fbConsider_length_le link acc
        omega
      simpa [fbLinkLoop, hge] using ih (fbConsider link acc) h'

/-- The outer fallback loop never grows the accumulator past the target. -/
theorem fbSelLoop_length_le (p : Page) (target : Nat) (sels : List Nat) :
    ∀ acc : List Post, acc.length ≤ target →
      (fbSelLoop p target sels acc).length ≤ target := by
  induction sels with
  | nil => intro acc h; simpa [fbSelLoop] using h
  | cons j rest ih =>
    intro acc h
    by_cases hge : target ≤ acc.length
    · simpa [fbSelLoop, hge] using h
    · rcases hf : p.fallback j with e | links
      · simpa [fbSelLoop, hge, hf] using ih acc h
      · simpa [fbSelLoop, hge, hf] using
          ih (fbLinkLoop target links acc) (fbLinkLoop_length_le target links acc h)

/-- The primary pass, entered below the target, stops at the target. -/
theorem primaryLoop_ok_length_le (p : Page) (target : Nat) (slots : List Nat) :
    ∀ acc l : List Post, acc.length < target →
      primaryLoop p target slots acc = .ok l → l.length ≤ target := by
  induction slots with
  | nil =>
    intro acc l h he
    simp only [primaryLoop, Except.ok.injEq] at he
    subst he
    exact Nat.le_of_lt h
  | cons i rest ih =>
    intro acc l h he
    rw [primaryLoop] at he
    rcases hs : slotStep p i with e | o
    · rw [hs] at he
      exact absurd he (by simp)
    · rcases o with _ | post
      · rw [hs] at he
        exact ih acc l h he
      · rw [hs] at he
        dsimp only at he
        by_cases hge : target ≤ (acc ++ [post]).length
        · rw [if_pos hge] at he
          simp only [Except.ok.injEq] at he
          subst he
          simp only [List.length_append, List.length_cons, List.length_nil]
          omega
        · rw [if_neg hge] at he
          exact ih (acc ++ [post]) l (Nat.lt_of_not_le hge) he

/-- The body of `extract_posts` returns at most `target` records whenever the
target is positive. -/
theorem extract_posts_body_ok_length_le (p : Page) (target : Nat) (l : List Post)
    (ht : 0 < target) (he : extract_posts_body p target = .ok l) :
    l.length ≤ target := by
  unfold extract_posts_body at he
  rcases hp : primaryLoop p target (List.range' 1 99) [] with e | pl
  · rw [hp] at he
    exact absurd he (by simp)
  · rw [hp] at he
    dsimp only at he
    have hpl : pl.length ≤ target :=
      primaryLoop_ok_length_le p target (List.range' 1 99) [] pl (by simpa using ht) hp
    by_cases hlt : pl.length < target
    · rw [if_pos hlt] at he
      simp only [Except.ok.injEq] at he
      subst he
      exact fbSelLoop_length_le p target (List.range' 0 14) pl hpl
    · rw [if_neg hlt] at he
      simp only [Except.ok.injEq] at he
      subst he
      exact hpl

/-- `extract_posts` returns at most `target` records whenever the target is
positive. -/
theorem extract_posts_ok_length_le (p : Page) (target : Nat) (l : List Post)
    (ht : 0 < target) (he : extract_posts p target = .ok l) :
    l.length ≤ target := by
  unfold extract_posts at he
  rcases hb : extract_posts_body p target with e | posts
  · rw [hb] at he
    simp only [Except.ok.injEq] at he
    subst he
    simp
  · rw [hb] at he
    simp only [Except.ok.injEq] at he
    subst he
    exact extract_posts_body_ok_length_le p target posts ht hb

/-! ### The claims -/

/-- Claim C1: for every positive targetCount, the sequence returned by the
top-level search operation (`scrape_posts` composing `search_keyword` and
`extract_posts`) has length at most targetCount; `extract_posts` itself also
never returns more than targetCount records (the primary pass stops at the
target, the fallback pass never appends past it), and the orchestrator
truncates any overflow with `posts[:max_posts]`. -/
theorem scrape_and_extract_bounded (s : Site) (p : Page) (t : Nat) (l : List Post)
    (ht : 0 < t) (hx : extract_posts p t = .ok l) :
    (scrape_posts s t).length ≤ t ∧ l.length ≤ t := by
  refine ⟨?_, extract_posts_ok_length_le p t l ht hx⟩
  by_cases hp : (search_keyword s t).isEmpty
  · simp [scrape_posts, hp]
  · have hq : scrape_posts s t = (search_keyword s t).take t := by
      simp [scrape_posts, hp]
    rw [hq, List.length_take]
    omega

/-- Witness for C1 at target 1 on a concrete site and page. -/
theorem scrape_and_extract_bounded_w :
    (scrape_posts siteOk 1).length ≤ 1 ∧ ([] : List Post).length ≤ 1 :=
  scrape_and_extract_bounded siteOk pEmpty 1 [] (by decide) rfl

/-- Claim C2 (refuted, code bug): the claim says both extraction loops probe
every position slot from 1 to 100 inclusive, and the source's own comment
announces the first 100 positions, but both loops run `for i in range(1, 100)`,
i.e. slots 1 to 99: on a page whose only matching link sits at position 100,
both the counting pass and the full pass come back empty, while position 99 is
still probed. -/
theorem slot100_never_probed :
    p100.link1 100 = .ok (some elemA) ∧
    extract_posts_for_count p100 = .ok [] ∧
    extract_posts p100 10 = .ok [] ∧
    extract_posts_for_count p99 =
      .ok [{ title := "What is the best example question", url := "", content := "" }] :=
  ⟨rfl, rfl, rfl, rfl⟩

/-- Counterexample to claim C3 as stated: on a page where slot 1 matches both
patterns and the pattern-2 expand path is present, the emitted record does
carry pattern B's view/like readings (55 and 7), not the `"0"` stand-ins. -/
theorem bothPatterns_record_carries_views :
    extract_posts pBoth 10 =
      .ok [{ title := "What is the best example question",
             url := "https://www.quora.com/q1", content := "",
             follow_text := some "0", follow_count := some "0",
             views := some "55", likes := some "7" }] ∧
    (some "55" : Option String) ≠ some "0" ∧ (some "7" : Option String) ≠ some "0" :=
  ⟨rfl, by decide, by decide⟩

/-- Claim C3 as amended: when both patterns match a slot, the emitted record
takes its title and url from pattern A's link and carries the follow fields,
but, because pattern 2 also matched, the view/like fields are populated by the
pattern-2 expand path rather than staying untouched. -/
theorem bothPatterns_emit_patternA_link (p : Page) (i : Nat) (e1 e2 : Elem)
    (h : Option String) (t : String)
    (h1 : p.link1 i = .ok (some e1)) (h2 : p.link2 i = .ok (some e2))
    (hh : e1.href = .ok h) (htx : e1.text = .ok t)
    (hv : pyStrip t ≠ "" ∧ 10 < (pyStrip t).length) :
    slotStep p i = .ok (some
      { title := pyStrip t, url := resolveLink h, content := "",
        follow_text := some (followMetrics p i).1,
        follow_count := some (followMetrics p i).2,
        views := some (mode2Metrics p i).1,
        likes := some (mode2Metrics p i).2 }) := by
  simp [slotStep, h1, h2, hh, htx, hv.1, hv.2]

/-- Witness for the amended C3 on the concrete both-patterns page. -/
theorem bothPatterns_emit_patternA_link_w :
    slotStep pBoth 1 = .ok (some
      { title := pyStrip "What is the best example question",
        url := resolveLink (some "/q1"), content := "",
        follow_text := some (followMetrics pBoth 1).1,
        follow_count := some (followMetrics pBoth 1).2,
        views := some (mode2Metrics pBoth 1).1,
        likes := some (mode2Metrics pBoth 1).2 }) :=
  bothPatterns_emit_patternA_link pBoth 1 elemA elemB (some "/q1")
    "What is the best example question" rfl rfl rfl rfl (by decide)

/-- Counterexample to claim C4 as stated: on a slot where only pattern A
matches, the view and like source locations expose nothing, yet the emitted
record holds `""` for them, not `"0"`. -/
theorem patternA_views_empty_not_zero :
    extract_posts pA1 10 =
      .ok [{ title := "What is the best example question",
             url := "https://www.quora.com/q1", content := "",
             follow_text := some "0", follow_count := some "0",
             views := some "", likes := some "" }] ∧
    (some "" : Option String) ≠ some "0" :=
  ⟨rfl, by decide⟩

/-- Claim C4 as amended: on a pattern-A-only slot the follow fields do default
to `"0"` when all four follow source locations are absent, but the view/like
fields stay the empty string — the `"0"` default for views/likes applies only
inside the pattern-2 expand path. -/
theorem patternA_slot_defaults (p : Page) (i : Nat) (e1 : Elem)
    (h : Option String) (t : String)
    (h1 : p.link1 i = .ok (some e1)) (h2 : p.link2 i = .ok none)
    (hfa : p.followA i = .ok none) (hfca : p.followCountA i = .ok none)
    (hfb : p.followB i = .ok none) (hfcb : p.followCountB i = .ok none)
    (hh : e1.href = .ok h) (htx : e1.text = .ok t)
    (hv : pyStrip t ≠ "" ∧ 10 < (pyStrip t).length) :
    slotStep p i = .ok (some
      { title := pyStrip t, url := resolveLink h, content := "",
        follow_text := some "0", follow_count := some "0",
        views := some "", likes := some "" }) := by
  have hfm : followMetrics p i = ("0", "0") := by
    simp [followMetrics, readStep, hfa, hfca, hfb, hfcb, fill0]
  simp [slotStep, h1, h2, hh, htx, hv.1, hv.2, hfm]

/-- Witness for the amended C4 on the concrete pattern-A-only page. -/
theorem patternA_slot_defaults_w :
    slotStep pA1 1 = .ok (some
      { title := pyStrip "What is the best example question",
        url := resolveLink (some "/q1"), content := "",
        follow_text := some "0", follow_count := some "0",
        views := some "", likes := some "" }) :=
  patternA_slot_defaults pA1 1 elemA (some "/q1")
    "What is the best example question" rfl rfl rfl rfl rfl rfl rfl rfl (by decide)

/-- Counterexample to claim C5 as stated: the link value `foo/bar` neither
starts with `/` nor is absolute, yet the emitted record's url is `foo/bar`,
not the empty string the claim requires for that case. -/
theorem plain_link_passes_through :
    extract_posts pRel 10 =
      .ok [{ title := "Another sufficiently long title", url := "foo/bar",
             content := "", follow_text := some "0", follow_count := some "0",
             views := some "", likes := some "" }] ∧
    pyStartsWith "foo/bar" "/" = false ∧
    pyStartsWith "foo/bar" "http://" = false ∧
    pyStartsWith "foo/bar" "https://" = false ∧
    "foo/bar" ≠ "" :=
  ⟨rfl, by decide, by decide, by decide, by decide⟩

/-- Claim C5 as amended: a link starting with `/` is prefixed with the site
origin, any other non-empty link passes through unchanged (absolute or not),
and only a missing or empty link yields an empty url. -/
theorem url_resolution_trichotomy (p : Page) (i : Nat) (e1 : Elem) (h t : String)
    (h1 : p.link1 i = .ok (some e1)) (h2 : p.link2 i = .ok none)
    (hh : e1.href = .ok (some h)) (htx : e1.text = .ok t)
    (hv : pyStrip t ≠ "" ∧ 10 < (pyStrip t).length) :
    ∃ r : Post, slotStep p i = .ok (some r) ∧
      r.url = (if pyStartsWith h "/" then "https://www.quora.com" ++ h
               else if h = "" then "" else h) := by
  refine ⟨{ title := pyStrip t, url := resolveLink (some h), content := "",
            follow_text := some (followMetrics p i).1,
            follow_count := some (followMetrics p i).2,
            views := some "", likes := some "" }, ?_, ?_⟩
  · simp [slotStep, h1, h2, hh, htx, hv.1, hv.2]
  · simp [resolveLink]

/-- Witness for the amended C5 on the concrete plain-relative-link page. -/
theorem url_resolution_trichotomy_w :
    ∃ r : Post, slotStep pRel 1 = .ok (some r) ∧
      r.url = (if pyStartsWith "foo/bar" "/" then "https://www.quora.com" ++ "foo/bar"
               else if "foo/bar" = "" then "" else "foo/bar") :=
  url_resolution_trichotomy pRel 1 elemRel "foo/bar"
    "Another sufficiently long title" rfl rfl rfl rfl (by decide)

/-- Claim C6: with targetCount 10 and six equal measurements of 3, the scroll
loop stops after exactly 6 iterations — the first measurement grows the count
from 0 to 3, the following five are non-growing, and the loop exits when the
stagnation streak reaches 5 — well before the 50-iteration budget. -/
theorem stagnation_stop_at_five (y : Nat → Nat) (h : ∀ k, k < 6 → y k = 3) :
    revealLoop y 10 = (6, StopReason.stagnation) ∧ (revealLoop y 10).1 < 50 := by
  have h0 := h 0 (by omega); have h1 := h 1 (by omega); have h2 := h 2 (by omega)
  have h3 := h 3 (by omega); have h4 := h 4 (by omega); have h5 := h 5 (by omega)
  have hm : revealLoop y 10 = (6, StopReason.stagnation) := by
    simp [revealLoop, revealLoopAux, h0, h1, h2, h3, h4, h5]
  exact ⟨hm, by rw [hm]; norm_num⟩

/-- Witness for C6 with the constant measurement sequence 3. -/
theorem stagnation_stop_at_five_w :
    revealLoop (fun _ => 3) 10 = (6, StopReason.stagnation) ∧
    (revealLoop (fun _ => 3) 10).1 < 50 :=
  stagnation_stop_at_five (fun _ => 3) (fun _ _ => rfl)

/-- Claim C7: with measurement sequence 2, 5, 9, 12 and targetCount 10, the
scroll loop continues through the first three reveals (all below 10) and stops
at the fourth, the first measurement at or above the target. -/
theorem target_stop_first_hit (y : Nat → Nat)
    (h0 : y 0 = 2) (h1 : y 1 = 5) (h2 : y 2 = 9) (h3 : y 3 = 12) :
    revealLoop y 10 = (4, StopReason.targetReached) ∧ ∀ j, j < 3 → y j < 10 := by
  refine ⟨by simp [revealLoop, revealLoopAux, h0, h1, h2, h3], ?_⟩
  intro j hj
  interval_cases j <;> simp [h0, h1, h2]

/-- Witness for C7 with the concrete measurement sequence. -/
theorem target_stop_first_hit_w :
    revealLoop yC7 10 = (4, StopReason.targetReached) ∧ ∀ j, j < 3 → yC7 j < 10 :=
  target_stop_first_hit yC7 rfl rfl rfl rfl

/-- Claim C8: when the rendered page text signals a no-results condition,
`search_keyword` returns the empty sequence at once, with zero iterations of
the scroll/measure loop performed. -/
theorem no_results_early_return (s : Site) (t : Nat)
    (h : noResultsFlag s.pageContent = true) :
    search_keyword_run s t = ([], 0) ∧ search_keyword s t = [] := by
  have hr : search_keyword_run s t = ([], 0) := by simp [search_keyword_run, h]
  exact ⟨hr, by simp [search_keyword, hr]⟩

/-- Witness for C8 on a page announcing no results. -/
theorem no_results_early_return_w :
    search_keyword_run siteNoRes 7 = ([], 0) ∧ search_keyword siteNoRes 7 = [] :=
  no_results_early_return siteNoRes 7 (by decide)

/-- Claim C9: `extract_posts` never raises to its caller: whatever the page
state and whatever per-slot or per-field reads fail, it returns a list (every
inner failure is caught where the source catches it, and the outermost except
handler turns the remaining failures into `[]`). -/
theorem extract_posts_never_throws (p : Page) (target : Nat) :
    ∃ l : List Post, extract_posts p target = .ok l := by
  rcases hb : extract_posts_body p target with e | posts
  · exact ⟨[], by simp [extract_posts, hb]⟩
  · exact ⟨posts, by simp [extract_posts, hb]⟩

/-- Claim C10: with requested count 0, `scrape_posts` returns the empty list
for every site — the final `posts[:0]` truncation discards everything — even
though `extract_posts` itself returns one record at target 0 on a page with a
matching slot (its break check `len(posts) >= target` fires only after the
first append). -/
theorem zero_target_scrape_empty (s : Site) :
    scrape_posts s 0 = [] ∧
    extract_posts pA1 0 =
      .ok [{ title := "What is the best example question",
             url := "https://www.quora.com/q1", content := "",
             follow_text := some "0", follow_count := some "0",
             views := some "", likes := some "" }] := by
  constructor
  · by_cases hp : (search_keyword s 0).isEmpty
    · simp [scrape_posts, hp]
    · simp [scrape_posts, hp]
  · rfl

end Quora
